import Mathlib

/-!
Shallow embedding of the frame flow-control core of the repository:

* `TaskQueue` (serial task executor with per-task bail semantics),
* `RedrawController` (draw/redraw coalescing on top of a `TaskQueue`),
* `RendererController` (decode-to-render coalescing transform).

JavaScript promise scheduling is embedded as an explicit state machine:
external events (an `enqueue` call, a `dispose` call, the settlement of the
currently running asynchronous task) are processed one at a time, and after
each event the resulting microtask cascade is drained to quiescence.  The
observable behaviour of each submitted task (whether its body was invoked,
and the result its caller receives) is recorded in a list indexed by
submission order.
-/

namespace YaWebAdb

/-- An error observable from the task queue: either the disposed-queue error
thrown by `enqueue` or by its scheduling guard, or a task-specific failure
identified by a numeric code. -/
inductive JsError
  | disposed
  | taskErr (code : Nat)
deriving DecidableEq

/-- The settled outcome of a task body or of a promise: a value, or a thrown
error. -/
inductive Outcome
  | val (v : Nat)
  | thrown (e : JsError)
deriving DecidableEq

/-- The behaviour of a submitted task: a synchronous task returns a plain
value or throws synchronously when its body runs; an asynchronous task
returns a promise that settles with the given outcome at a later external
settlement event. -/
inductive TaskBehavior
  | syncOk (v : Nat)
  | syncThrow (code : Nat)
  | asyncOk (v : Nat)
  | asyncThrow (code : Nat)
deriving DecidableEq

/-- The outcome a task's body produces once it runs. -/
def TaskBehavior.outcome : TaskBehavior → Outcome
  | .syncOk v => .val v
  | .syncThrow c => .thrown (.taskErr c)
  | .asyncOk v => .val v
  | .asyncThrow c => .thrown (.taskErr c)

/-- A task submission: its behaviour and its `bail` flag. -/
structure TaskSpec where
  behavior : TaskBehavior
  bail : Bool
deriving DecidableEq

/-- The settlement status of the head of the queue's `ready` chain.
`busy` is an invoked asynchronous task that has not yet settled: it carries
the outcome it will settle with, its `bail` flag, whether it was started from
the unchained fast path (whose chain-update handler checks only `bail`,
whereas the chained path's handler checks `bail` or disposal at settlement
time), and its submission index. -/
inductive ChainStatus
  | ok
  | err (e : JsError)
  | busy (o : Outcome) (bail : Bool) (fromIdle : Bool) (id : Nat)
deriving DecidableEq

/-- How the `ready` chain advances when the settlement handler installed for
a task runs on outcome `o`.  The handler rethrows a failure when `bail` is
set, or — for tasks chained through the non-idle path — when the queue has
been disposed by settlement time; otherwise the failure is swallowed and the
chain is healthy again. -/
def advance (o : Outcome) (bail fromIdle isDisposed : Bool) : ChainStatus :=
  match o with
  | .val _ => .ok
  | .thrown e => if bail || (!fromIdle && isDisposed) then .err e else .ok

/-- The result a task's caller observes. `syncValue` and `syncThrown` are
delivered synchronously from the `enqueue` call itself; `settled` is the
eventual settlement of a returned promise; `pending` is a promise that has
not settled yet. -/
inductive TaskResult
  | syncValue (v : Nat)
  | syncThrown (e : JsError)
  | settled (o : Outcome)
  | pending
deriving DecidableEq

/-- What is observable about one submitted task: whether its body was ever
invoked, and the result delivered to its caller. -/
structure TaskObs where
  invoked : Bool
  result : TaskResult
deriving DecidableEq

/-- The queue's own mutable state: the disposed flag and the `ready` chain.
`none` is an unset chain (the synchronous fast path is taken); otherwise the
chain holds its head status and the list of pending submissions whose
scheduling guards have not run yet, in submission order. -/
structure QueueState where
  isDisposed : Bool
  chain : Option (ChainStatus × List (Nat × TaskSpec))
deriving DecidableEq

/-- A queue together with the observation record of every submission made so
far (indexed by submission order). -/
structure QueueSys where
  q : QueueState
  obs : List TaskObs
deriving DecidableEq

/-- Drain the microtask cascade: while the chain head is settled and pending
submissions exist, run each scheduling guard in submission order.  A guard
rejects without invoking its task when the queue is disposed (disposed-queue
error) or when the chain is rejected (the stored failure propagates);
otherwise it invokes the task.  An invoked asynchronous task leaves the chain
busy until an external settlement event. -/
def drain (isDisposed : Bool) : ChainStatus → List (Nat × TaskSpec) →
    List TaskObs → ChainStatus × List (Nat × TaskSpec) × List TaskObs
  | st, [], obs => (st, [], obs)
  | .busy o b fi j, ps, obs => (.busy o b fi j, ps, obs)
  | .ok, (i, t) :: ps, obs =>
    if isDisposed then
      drain isDisposed (.err .disposed) ps
        (obs.set i ⟨false, .settled (.thrown .disposed)⟩)
    else
      match t.behavior with
      | .syncOk v =>
        drain isDisposed .ok ps (obs.set i ⟨true, .settled (.val v)⟩)
      | .syncThrow c =>
        drain isDisposed (advance (.thrown (.taskErr c)) t.bail false isDisposed) ps
          (obs.set i ⟨true, .settled (.thrown (.taskErr c))⟩)
      | .asyncOk v =>
        (.busy (.val v) t.bail false i, ps, obs.set i ⟨true, .pending⟩)
      | .asyncThrow c =>
        (.busy (.thrown (.taskErr c)) t.bail false i, ps, obs.set i ⟨true, .pending⟩)
  | .err e, (i, t) :: ps, obs =>
    drain isDisposed (advance (.thrown e) t.bail false isDisposed) ps
      (obs.set i ⟨false, .settled (.thrown e)⟩)

/-- One `enqueue` call on a quiescent queue system.  Appends one observation
for the new task; its id is its submission index.  On a disposed queue the
call throws synchronously.  On an unset chain the task body runs
synchronously; a synchronous bail failure poisons the chain, and an
asynchronous task leaves the chain busy.  Otherwise the task is chained onto
the pending list and the microtask cascade is drained. -/
def enq (s : QueueSys) (t : TaskSpec) : QueueSys :=
  if s.q.isDisposed then
    { s with obs := s.obs ++ [⟨false, .syncThrown .disposed⟩] }
  else
    match s.q.chain with
    | none =>
      match t.behavior with
      | .syncOk v => { s with obs := s.obs ++ [⟨true, .syncValue v⟩] }
      | .syncThrow c =>
        ⟨⟨s.q.isDisposed, if t.bail then some (.err (.taskErr c), []) else none⟩,
          s.obs ++ [⟨true, .syncThrown (.taskErr c)⟩]⟩
      | .asyncOk v =>
        ⟨⟨s.q.isDisposed, some (.busy (.val v) t.bail true s.obs.length, [])⟩,
          s.obs ++ [⟨true, .pending⟩]⟩
      | .asyncThrow c =>
        ⟨⟨s.q.isDisposed, some (.busy (.thrown (.taskErr c)) t.bail true s.obs.length, [])⟩,
          s.obs ++ [⟨true, .pending⟩]⟩
    | some (st, ps) =>
      let r := drain s.q.isDisposed st (ps ++ [(s.obs.length, t)])
        (s.obs ++ [⟨false, .pending⟩])
      ⟨⟨s.q.isDisposed, some (r.1, r.2.1)⟩, r.2.2⟩

/-- A `dispose` call: sets the disposed flag and nothing else. -/
def disp (s : QueueSys) : QueueSys :=
  ⟨⟨true, s.q.chain⟩, s.obs⟩

/-- The currently running asynchronous task settles with its predetermined
outcome: its caller's promise settles with that outcome, its settlement
handler advances the chain, and the microtask cascade drains. -/
def settleTop (s : QueueSys) : QueueSys :=
  match s.q.chain with
  | some (.busy o b fi i, ps) =>
    let r := drain s.q.isDisposed (advance o b fi s.q.isDisposed) ps
      (s.obs.set i ⟨true, .settled o⟩)
    ⟨⟨s.q.isDisposed, some (r.1, r.2.1)⟩, r.2.2⟩
  | _ => s

/-- An external event for a task queue. -/
inductive QEvent
  | enqueue (t : TaskSpec)
  | dispose
  | taskSettles
deriving DecidableEq

/-- Process one external event. -/
def qstep (s : QueueSys) : QEvent → QueueSys
  | .enqueue t => enq s t
  | .dispose => disp s
  | .taskSettles => settleTop s

/-- A fresh task queue. -/
def qinit : QueueSys := ⟨⟨false, none⟩, []⟩

/-- Run a fresh task queue through a list of external events. -/
def qrun (evs : List QEvent) : QueueSys := evs.foldl qstep qinit

/-!
`RedrawController` embedding.  The controller owns a `TaskQueue` and always
enqueues with `bail = true`; its tasks are async functions, so they are
invoked and later settle.  Frames are identified by numbers: frames handed to
`draw` keep the caller's identifier, and every clone the controller makes
receives a fresh identifier from the `nextClone` counter.  The externally
supplied draw callback's behaviour for one invocation is predetermined as an
`Option Nat`: `none` means it fulfills, `some c` means it rejects with
code `c`. -/

/-- A task the redraw controller enqueues on its queue: the draw task created
by `draw` (holding the original frame it must close in its `finally` block)
or the redraw task created by `redraw` (holding its cancellation token). -/
inductive RTask
  | drawT (frame : Nat) (cb : Option Nat)
  | redrawT (token : Nat) (cb : Option Nat)
deriving DecidableEq

/-- The chain status of the controller's queue.  All controller tasks are
asynchronous and use `bail = true`, so `busy` needs only the error the
running task will settle with (`none` is success) and the frame its
`finally` block closes at settlement (`none` when the task closes nothing). -/
inductive RStatus
  | ok
  | err (e : JsError)
  | busy (cbErr : Option Nat) (toClose : Option Nat)
deriving DecidableEq

/-- The controller's own fields and the frame/callback accounting: the
pending-redraw token, the retained last-frame clone, the set of aborted
tokens, fresh-token and fresh-clone counters, the multiset of frame
identifiers closed so far (in order), and the frame identifiers passed to
the draw callback so far (in order). -/
structure RCore where
  pendingRedraw : Option Nat
  lastFrame : Option Nat
  abortedTokens : List Nat
  nextToken : Nat
  nextClone : Nat
  closes : List Nat
  calls : List Nat
deriving DecidableEq

/-- A redraw controller: its queue's disposed flag and chain, plus the
controller fields. -/
structure RCState where
  qDisposed : Bool
  chain : Option (RStatus × List RTask)
  core : RCore
deriving DecidableEq

/-- Invoke a controller task body.  A draw task passes its frame to the draw
callback and will close that frame in its `finally` block at settlement.  A
redraw task first checks its token: if aborted it returns at once; otherwise
it clears the pending-redraw marker, clones the retained last frame, passes
the clone to the draw callback, and will close the clone at settlement. -/
def invokeR (c : RCore) : RTask → RCore × RStatus
  | .drawT f cb => ({ c with calls := c.calls ++ [f] }, .busy cb (some f))
  | .redrawT tk cb =>
    if tk ∈ c.abortedTokens then (c, .busy none none)
    else
      match c.lastFrame with
      | none => (c, .busy none none)
      | some _ =>
        let c2 := { c with
          pendingRedraw := none,
          calls := c.calls ++ [c.nextClone],
          nextClone := c.nextClone + 1 }
        (c2, .busy cb (some c.nextClone))

/-- Drain the controller queue's microtask cascade, invoking pending tasks in
order while the chain head is settled and healthy; a rejected chain or a
disposed queue skips pending tasks without invoking them (all controller
tasks use `bail = true`, so a propagated failure keeps the chain rejected). -/
def rdrain (qDisposed : Bool) : RStatus → List RTask → RCore →
    RStatus × List RTask × RCore
  | st, [], c => (st, [], c)
  | .busy o tc, ps, c => (.busy o tc, ps, c)
  | .ok, p :: ps, c =>
    if qDisposed then rdrain qDisposed (.err .disposed) ps c
    else
      let r := invokeR c p
      (r.2, ps, r.1)
  | .err e, _ :: ps, c => rdrain qDisposed (.err e) ps c

/-- Enqueue a controller task with `bail = true` on the controller's queue.
On a disposed queue the `enqueue` call throws and the task is dropped; on an
unset chain the async task body starts at once; otherwise it is chained and
the cascade drains. -/
def renqueue (s : RCState) (p : RTask) : RCState :=
  if s.qDisposed then s
  else
    match s.chain with
    | none =>
      let r := invokeR s.core p
      { s with chain := some (r.2, []), core := r.1 }
    | some (st, ps) =>
      let r := rdrain s.qDisposed st (ps ++ [p]) s.core
      { s with chain := some (r.1, r.2.1), core := r.2.2 }

/-- An external event for a redraw controller: a `draw` call with a frame
and the draw callback's behaviour for that invocation, a `redraw` call, the
settlement of the currently running controller task, or a `dispose` call. -/
inductive REvent
  | draw (frame : Nat) (cb : Option Nat)
  | redraw (cb : Option Nat)
  | settleTask
  | disposeAll
deriving DecidableEq

/-- Process one controller event.

`draw` aborts and clears any pending-redraw token, closes the previous
retained last frame, retains a fresh clone of the incoming frame as the new
last frame, and only then enqueues the draw task.

`redraw` is a no-op when there is no retained last frame or a redraw is
already pending; otherwise it records a fresh token as pending and enqueues
the redraw task.

`settleTask` settles the running controller task: its `finally` block closes
the recorded frame, and the chain advances (with `bail = true` a failure
always poisons it), after which the cascade drains.

`disposeAll` aborts the pending-redraw token (leaving it recorded), closes
and clears the retained last frame, and disposes the queue. -/
def rstep (s : RCState) : REvent → RCState
  | .draw f cb =>
    let c := s.core
    let c := { c with
      abortedTokens := c.abortedTokens ++ c.pendingRedraw.toList,
      pendingRedraw := none,
      closes := c.closes ++ c.lastFrame.toList,
      lastFrame := some c.nextClone,
      nextClone := c.nextClone + 1 }
    renqueue { s with core := c } (.drawT f cb)
  | .redraw cb =>
    match s.core.lastFrame, s.core.pendingRedraw with
    | none, _ => s
    | some _, some _ => s
    | some _, none =>
      let tk := s.core.nextToken
      renqueue
        { s with core := { s.core with pendingRedraw := some tk, nextToken := tk + 1 } }
        (.redrawT tk cb)
  | .settleTask =>
    match s.chain with
    | some (.busy cbErr toClose, ps) =>
      let c := { s.core with closes := s.core.closes ++ toClose.toList }
      let st : RStatus := match cbErr with
        | none => .ok
        | some code => .err (.taskErr code)
      let r := rdrain s.qDisposed st ps c
      { s with chain := some (r.1, r.2.1), core := r.2.2 }
    | _ => s
  | .disposeAll =>
    { qDisposed := true
      chain := s.chain
      core := { s.core with
        abortedTokens := s.core.abortedTokens ++ s.core.pendingRedraw.toList,
        closes := s.core.closes ++ s.core.lastFrame.toList,
        lastFrame := none } }

/-- A fresh redraw controller.  Clone identifiers start at 1000 so that in
the concrete traces below they never collide with the identifiers of frames
handed in by the caller. -/
def rinit : RCState := ⟨false, none, ⟨none, none, [], 0, 1000, [], []⟩⟩

/-- Run a fresh redraw controller through a list of events. -/
def rrun (evs : List REvent) : RCState := evs.foldl rstep rinit

/-!
`RendererController` embedding (flow-control.ts).  The writable side's
`write` never waits for the draw loop; starting the loop runs the async
`draw` method synchronously up to its first suspension, which takes the
slot's frame and hands it to the readable controller's `enqueue`.  The
consumer's acceptance or rejection of that in-flight handoff, and the
producer closing the writable side, are external events.  Frames keep their
caller identifiers; capture clones receive fresh identifiers from a counter
starting at 1000 so they never collide with caller identifiers in the
concrete traces below. -/

/-- An entry of the renderer's ordered observation log: a frame delivered to
the downstream consumer, the readable (output) side being closed, or the
performance counter being disposed. -/
inductive RenLog
  | delivered (f : Nat)
  | outputClosed
  | counterDisposed
deriving DecidableEq

/-- The renderer's state: the retained capture clone, the single-frame
coalescing slot, whether a draw loop is active, the frame currently awaited
inside the readable controller's `enqueue` (if any), the skipped and
rendered counters, the multiset of closed frame identifiers, whether the
writable side's `close` handler is waiting for the draw loop, the fresh
clone counter, and the ordered log. -/
structure RenState where
  captureFrame : Option Nat
  nextFrame : Option Nat
  drawActive : Bool
  inFlight : Option Nat
  skipped : Nat
  rendered : Nat
  closes : List Nat
  closeRequested : Bool
  nextClone : Nat
  log : List RenLog
deriving DecidableEq

/-- One resumption of the draw loop: take the slot contents into an
in-flight handoff to the readable controller, or — when the slot is empty —
clear the loop's active marker, and when the writable side's `close` handler
was waiting on the loop, close the output side and dispose the counter. -/
def loopAdvance (s : RenState) : RenState :=
  match s.nextFrame with
  | some f => { s with nextFrame := none, inFlight := some f }
  | none =>
    let s2 := { s with drawActive := false }
    if s2.closeRequested then
      { s2 with
        log := s2.log ++ [.outputClosed, .counterDisposed],
        closeRequested := false }
    else s2

/-- An external event for the renderer: a frame written by the producer, the
consumer accepting or rejecting (after cancellation) the in-flight handoff,
or the producer gracefully closing the input side. -/
inductive RenEvent
  | write (f : Nat)
  | accept
  | reject
  | closeInput
deriving DecidableEq

/-- Process one renderer event.

`write` closes the previous capture clone and retains a fresh clone of the
incoming frame; if the slot is occupied it closes the occupant and counts it
as skipped; the incoming frame (the original, not a clone) takes the slot;
then, if no draw loop is active, one is started and runs synchronously up to
its first suspension.

`accept` means the consumer took ownership of the in-flight frame: it is
logged as delivered, the rendered counter increments, and the loop resumes.

`reject` means the consumer had already cancelled: the renderer closes the
frame itself and the loop resumes, continuing to drain the slot.

`closeInput` is the writable side's `close` handler: it waits for an active
draw loop to finish before closing the output side and disposing the
counter; with no active loop it closes the output at once. -/
def renStep (s : RenState) : RenEvent → RenState
  | .write f =>
    let s1 := { s with
      closes := s.closes ++ s.captureFrame.toList,
      captureFrame := some s.nextClone,
      nextClone := s.nextClone + 1 }
    let s2 := match s1.nextFrame with
      | some g => { s1 with
          closes := s1.closes ++ [g],
          skipped := s1.skipped + 1,
          nextFrame := some f }
      | none => { s1 with nextFrame := some f }
    if s2.drawActive then s2
    else loopAdvance { s2 with drawActive := true }
  | .accept =>
    match s.inFlight with
    | some f =>
      loopAdvance { s with
        inFlight := none,
        rendered := s.rendered + 1,
        log := s.log ++ [.delivered f] }
    | none => s
  | .reject =>
    match s.inFlight with
    | some f => loopAdvance { s with inFlight := none, closes := s.closes ++ [f] }
    | none => s
  | .closeInput =>
    if s.drawActive then { s with closeRequested := true }
    else { s with log := s.log ++ [.outputClosed, .counterDisposed] }

/-- A fresh renderer. -/
def renInit : RenState := ⟨none, none, false, none, 0, 0, [], false, 1000, []⟩

/-- Run a fresh renderer through a list of events. -/
def renRun (evs : List RenEvent) : RenState := evs.foldl renStep renInit

/-! Helper definitions and lemmas shared by the theorems below. -/

/-- Mark every pending submission as skipped with failure `e` in the
observation record (the shape the drain cascade produces on a rejected chain
or a disposed queue). -/
def failAll (e : JsError) : List (Nat × TaskSpec) → List TaskObs → List TaskObs
  | [], obs => obs
  | (i, _) :: ps, obs => failAll e ps (obs.set i ⟨false, .settled (.thrown e)⟩)

/-- The failure every pending submission receives when the running task
settles on an already-disposed queue: the disposed error when the chain ends
up healthy, otherwise the propagated failure. -/
def postDisposeErr (o : Outcome) (bail fromIdle : Bool) : JsError :=
  match advance o bail fromIdle true with
  | .err e => e
  | _ => .disposed

/-- Setting the position just past `l` in `l ++ [a]` replaces `a`. -/
theorem setSnoc {α : Type} (l : List α) (a b : α) :
    (l ++ [a]).set l.length b = l ++ [b] := by
  induction l with
  | nil => rfl
  | cons x xs ih =>
    show x :: ((xs ++ [a]).set xs.length b) = x :: (xs ++ [b])
    exact congrArg _ ih

/-- The chain-advance handler settles to `ok` or `err`, never `busy`. -/
theorem advanceCases (o : Outcome) (b fi d : Bool) :
    advance o b fi d = .ok ∨ ∃ e, advance o b fi d = .err e := by
  cases o with
  | val v => exact Or.inl rfl
  | thrown e =>
    by_cases hb : (b || (!fi && d)) = true
    · exact Or.inr ⟨e, by simp [advance, hb]⟩
    · exact Or.inl (by simp [advance, hb])

/-- Draining a rejected chain on a disposed queue skips every pending
submission, failing each with the propagated error. -/
theorem drainDisposedErr (e : JsError) (ps : List (Nat × TaskSpec))
    (obs : List TaskObs) :
    drain true (.err e) ps obs = (.err e, [], failAll e ps obs) := by
  induction ps generalizing obs with
  | nil => rfl
  | cons p ps ih =>
    obtain ⟨i, t⟩ := p
    show drain true (advance (.thrown e) t.bail false true) ps
      (obs.set i ⟨false, .settled (.thrown e)⟩) = _
    have ha : advance (.thrown e) t.bail false true = .err e := by
      show (if t.bail || (!false && true) then ChainStatus.err e else .ok) = _
      simp
    rw [ha, ih]
    rfl

/-- Draining a healthy chain on a disposed queue skips every pending
submission, failing each with the disposed error. -/
theorem drainDisposedOk (ps : List (Nat × TaskSpec)) (obs : List TaskObs) :
    ∃ st, drain true .ok ps obs = (st, [], failAll .disposed ps obs) := by
  cases ps with
  | nil => exact ⟨.ok, rfl⟩
  | cons p ps =>
    obtain ⟨i, t⟩ := p
    refine ⟨.err .disposed, ?_⟩
    show drain true (.err .disposed) ps
      (obs.set i ⟨false, .settled (.thrown .disposed)⟩) = _
    rw [drainDisposedErr]
    rfl

/-- The event submitting one synchronous bail-false task: `(true, v)` is a
task returning `v`, `(false, c)` a task throwing code `c`. -/
def syncEvent (p : Bool × Nat) : QEvent :=
  .enqueue ⟨if p.1 then .syncOk p.2 else .syncThrow p.2, false⟩

/-- The observation the fast path delivers for the task `syncEvent p`
submits: invoked, with its value returned (or its error thrown)
synchronously from the `enqueue` call itself. -/
def syncObs (p : Bool × Nat) : TaskObs :=
  if p.1 then ⟨true, .syncValue p.2⟩ else ⟨true, .syncThrown (.taskErr p.2)⟩

/-- Submitting synchronous bail-false tasks to a queue whose chain is unset
runs each synchronously on the fast path and leaves the chain unset. -/
theorem syncRunAux (ts : List (Bool × Nat)) (obs : List TaskObs) :
    (ts.map syncEvent).foldl qstep ⟨⟨false, none⟩, obs⟩ =
      ⟨⟨false, none⟩, obs ++ ts.map syncObs⟩ := by
  induction ts generalizing obs with
  | nil => simp
  | cons p ts ih =>
    obtain ⟨b, n⟩ := p
    cases b
    · have hstep : qstep ⟨⟨false, none⟩, obs⟩ (syncEvent (false, n))
          = ⟨⟨false, none⟩, obs ++ [syncObs (false, n)]⟩ := rfl
      simp only [List.map_cons, List.foldl_cons, hstep, ih]
      simp
    · have hstep : qstep ⟨⟨false, none⟩, obs⟩ (syncEvent (true, n))
          = ⟨⟨false, none⟩, obs ++ [syncObs (true, n)]⟩ := rfl
      simp only [List.map_cons, List.foldl_cons, hstep, ih]
      simp

/-! The claims. -/

/-- C1, counterexample.  Task 0 (bail = true) fails with code 7 and poisons
the queue.  Task 1 (bail = false) is submitted next: it is never invoked and
its result fails with task 0's error, so no bail-false success has occurred.
Yet task 2, submitted after task 1 settles, is invoked and succeeds —
refuting the claim that every task submitted after the bail-true failure is
never invoked until a bail-false success. -/
theorem c1_poison_cleared_without_success_ce :
    (qrun [.enqueue ⟨.asyncThrow 7, true⟩, .taskSettles,
      .enqueue ⟨.asyncOk 1, false⟩, .taskSettles,
      .enqueue ⟨.syncOk 2, false⟩]).obs =
      [⟨true, .settled (.thrown (.taskErr 7))⟩,
       ⟨false, .settled (.thrown (.taskErr 7))⟩,
       ⟨true, .settled (.val 2)⟩] := by decide

/-- C1, amended: on a poisoned queue (chain rejected with failure `e`), any
submitted task is never invoked and its result fails with `e`; a bail-true
submission leaves the queue poisoned, while a bail-false submission — even
though it is itself skipped and its result fails — returns the chain to the
healthy state, so tasks submitted after it settles are invoked again. -/
theorem c1_poisoned_enqueue_skips_and_bail_false_clears
    (obs : List TaskObs) (e : JsError) (t : TaskSpec) :
    enq ⟨⟨false, some (.err e, [])⟩, obs⟩ t =
      ⟨⟨false, some ((if t.bail then ChainStatus.err e else .ok), [])⟩,
        obs ++ [⟨false, .settled (.thrown e)⟩]⟩ := by
  cases hb : t.bail
  · simp [enq, drain, advance, setSnoc, hb]
  · simp [enq, drain, advance, setSnoc, hb]

/-- C2, counterexample.  The first `draw` poisons the queue (its callback
fails with code 7); the second `draw` hands frame 200 to the controller, but
the enqueued task is never invoked, so frame 200 is never closed (only frame
100 and the replaced last-frame clone 1000 are) and the draw callback never
sees it — refuting the claim that the frame passed to `draw` is closed
exactly once regardless of the state of the underlying queue. -/
theorem c2_frame_not_closed_on_poisoned_queue_ce :
    ((rrun [.draw 100 (some 7), .settleTask, .draw 200 none,
        .settleTask]).core.closes = [100, 1000])
    ∧ ((rrun [.draw 100 (some 7), .settleTask, .draw 200 none,
        .settleTask]).core.calls = [100]) := by decide

/-- C2, amended: whenever the task `draw` enqueues is invoked, the frame
handed to `draw` is passed to the draw callback and closed exactly once,
whether the callback succeeds (`cb = none`) or fails (`cb = some code`);
when the task is never invoked (poisoned or disposed queue) the controller
does not close the frame. -/
theorem c2_frame_closed_exactly_once_when_invoked (f : Nat) (cb : Option Nat) :
    (rrun [.draw f cb, .settleTask]).core.closes = [f]
    ∧ (rrun [.draw f cb, .settleTask]).core.calls = [f] := by
  cases cb
  · exact ⟨rfl, rfl⟩
  · exact ⟨rfl, rfl⟩

/-- C3, counterexample.  Frames 1, 2, 3 are written in one burst before the
consumer accepts anything.  Writing frame 1 synchronously starts the draw
loop, which immediately takes frame 1 out of the slot and hands it to the
output side; so frame 1 is delivered downstream, only frame 2 is skipped,
and the skip counter ends at 1 — refuting the claim that frames 1 and 2 are
each closed as skipped and only frame 3 is forwarded. -/
theorem c3_first_frame_forwarded_ce :
    ((renRun [.write 1, .write 2, .write 3, .accept, .accept]).log
      = [.delivered 1, .delivered 3])
    ∧ (renRun [.write 1, .write 2, .write 3, .accept, .accept]).skipped = 1 := by
  decide

/-- C3, amended: writing `f1`, `f2`, `f3` in rapid succession delivers `f1`
and `f3` downstream in order, closes `f2` (together with the two replaced
capture clones 1000 and 1001) with the skip counter incremented exactly
once, and counts two frames rendered. -/
theorem c3_burst_skips_middle_frame (f1 f2 f3 : Nat) :
    ((renRun [.write f1, .write f2, .write f3, .accept, .accept]).log
      = [.delivered f1, .delivered f3])
    ∧ (renRun [.write f1, .write f2, .write f3, .accept, .accept]).skipped = 1
    ∧ ((renRun [.write f1, .write f2, .write f3, .accept, .accept]).closes
      = [1000, 1001, f2])
    ∧ (renRun [.write f1, .write f2, .write f3, .accept, .accept]).rendered = 2 := by
  exact ⟨rfl, rfl, rfl, rfl⟩

/-- C4, counterexample.  An asynchronous task is submitted and settles, so
every previously submitted task has settled — the queue is idle in the
claim's sense — yet the chain is a settled promise rather than unset, so a
subsequently submitted synchronous task is run from the chained path: its
result is delivered as a deferred settlement, not returned synchronously
from `enqueue`. -/
theorem c4_settled_chain_not_sync_ce :
    ((qrun [.enqueue ⟨.asyncOk 5, false⟩, .taskSettles]).q.chain
      = some (.ok, []))
    ∧ ((qrun [.enqueue ⟨.asyncOk 5, false⟩, .taskSettles]).obs
      = [⟨true, .settled (.val 5)⟩])
    ∧ ((enq (qrun [.enqueue ⟨.asyncOk 5, false⟩, .taskSettles])
        ⟨.syncOk 3, false⟩).obs
      = [⟨true, .settled (.val 5)⟩, ⟨true, .settled (.val 3)⟩])
    ∧ TaskResult.settled (.val 3) ≠ TaskResult.syncValue 3 := by decide

/-- C4, amended: the synchronous fast path requires the chain to be unset
(no asynchronous task was ever submitted and no bail-true synchronous
failure occurred), not merely that all previous tasks have settled.  On such
a queue, every task in a sequence of synchronous bail-false tasks is invoked
immediately, in submission order, with its value returned (or error thrown)
synchronously from its own `enqueue` call, and the chain stays unset. -/
theorem c4_unchained_sync_tasks_run_immediately (ts : List (Bool × Nat)) :
    (qrun (ts.map syncEvent)).obs = ts.map syncObs
    ∧ (qrun (ts.map syncEvent)).q = ⟨false, none⟩ := by
  have hq : qrun (ts.map syncEvent) = ⟨⟨false, none⟩, [] ++ ts.map syncObs⟩ :=
    syncRunAux ts []
  rw [hq]
  constructor
  · simp
  · rfl

/-- C5, counterexample.  Task 1 (bail = false) is running and task 2 is
already scheduled behind it when `dispose` is called; task 1 then fails with
code 7.  Because the queue is disposed at settlement time, task 1's failure
is kept on the chain, and task 2 — an already-scheduled pending task — fails
with task 1's error, not with the disposed-queue error the claim requires
(it is, as claimed, never invoked). -/
theorem c5_pending_task_error_after_dispose_ce :
    (qrun [.enqueue ⟨.asyncOk 1, false⟩, .enqueue ⟨.asyncThrow 7, false⟩,
      .taskSettles, .enqueue ⟨.syncOk 2, false⟩, .dispose, .taskSettles]).obs =
      [⟨true, .settled (.val 1)⟩,
       ⟨true, .settled (.thrown (.taskErr 7))⟩,
       ⟨false, .settled (.thrown (.taskErr 7))⟩] := by decide

/-- C5, amended: on a disposed queue with a running task, the running task
still settles with its own outcome delivered to its caller (disposal does
not cancel it); every pending task is skipped without being invoked, failing
with the disposed-queue error when the chain settles healthy and with the
propagated failure when the running task's settlement keeps the chain
rejected; and any new submission throws the disposed-queue error
synchronously without being invoked. -/
theorem c5_dispose_skips_pending_and_preserves_running
    (obs : List TaskObs) (o : Outcome) (b fi : Bool) (i : Nat)
    (ps : List (Nat × TaskSpec)) (t : TaskSpec) :
    (∃ st, settleTop ⟨⟨true, some (.busy o b fi i, ps)⟩, obs⟩ =
      ⟨⟨true, some (st, [])⟩,
        failAll (postDisposeErr o b fi) ps (obs.set i ⟨true, .settled o⟩)⟩)
    ∧ (∀ s2, settleTop ⟨⟨true, some (.busy o b fi i, ps)⟩, obs⟩ = s2 →
        (enq s2 t).obs = s2.obs ++ [⟨false, .syncThrown .disposed⟩]) := by
  have hmain : ∃ st, settleTop ⟨⟨true, some (.busy o b fi i, ps)⟩, obs⟩ =
      ⟨⟨true, some (st, [])⟩,
        failAll (postDisposeErr o b fi) ps (obs.set i ⟨true, .settled o⟩)⟩ := by
    rcases advanceCases o b fi true with h | ⟨e, h⟩
    · rcases drainDisposedOk ps (obs.set i ⟨true, .settled o⟩) with ⟨st, hd⟩
      refine ⟨st, ?_⟩
      have hp : postDisposeErr o b fi = .disposed := by
        simp [postDisposeErr, h]
      simp only [settleTop, h, hd, hp]
    · refine ⟨.err e, ?_⟩
      have hp : postDisposeErr o b fi = e := by
        simp [postDisposeErr, h]
      simp only [settleTop, h, drainDisposedErr, hp]
  refine ⟨hmain, ?_⟩
  intro s2 hs2
  rcases hmain with ⟨st, hst⟩
  rw [hs2] at hst
  rw [hst]
  simp [enq]

/-- C6: calling `redraw` while a redraw is already pending leaves the
controller state completely unchanged (at most one pending token ever
exists, since the pending marker is a single optional field); and in the
trace where `draw 200` arrives while the redraw queued behind `draw 100` is
still pending, the redraw's token is aborted, so its callback body never
runs: the draw callback is invoked exactly for frames 100 and 200 and never
for the redraw's clone. -/
theorem c6_redraw_noop_when_pending_and_draw_cancels
    (qd : Bool) (ch : Option (RStatus × List RTask)) (tk : Nat)
    (lf : Option Nat) (ab : List Nat) (nt nc : Nat) (cl ca : List Nat)
    (cb : Option Nat) :
    (rstep ⟨qd, ch, ⟨some tk, lf, ab, nt, nc, cl, ca⟩⟩ (.redraw cb)
      = ⟨qd, ch, ⟨some tk, lf, ab, nt, nc, cl, ca⟩⟩)
    ∧ ((rrun [.draw 100 none, .redraw none, .draw 200 none,
        .settleTask, .settleTask, .settleTask]).core.calls = [100, 200])
    ∧ ((rrun [.draw 100 none, .redraw none, .draw 200 none,
        .settleTask, .settleTask, .settleTask]).core.abortedTokens = [0]) := by
  refine ⟨?_, by decide, by decide⟩
  cases lf
  · rfl
  · rfl

/-- C7: after writing `f1` (taken by the draw loop) and `f2` (still in the
coalescing slot), a graceful close of the input side does not close the
output immediately: the log is still empty and `f2` still occupies the slot.
Once the consumer drains the in-flight work, `f2` is delivered downstream
first, then the output side closes, then the counter is disposed. -/
theorem c7_graceful_close_flushes_slot (f1 f2 : Nat) :
    ((renRun [.write f1, .write f2, .closeInput]).log = [])
    ∧ ((renRun [.write f1, .write f2, .closeInput]).nextFrame = some f2)
    ∧ ((renRun [.write f1, .write f2, .closeInput, .accept, .accept]).log =
        [.delivered f1, .delivered f2, .outputClosed, .counterDisposed]) := by
  exact ⟨rfl, rfl, rfl⟩

/-- C8: task 0 (bail = false) fails with code `ec`; its failure is delivered
to its own caller, the chain returns to healthy, and task 1 — of any
behaviour, submitted after task 0 settles — is invoked and executes
normally, its caller receiving exactly its own outcome. -/
theorem c8_nonbail_failure_keeps_queue_healthy (ec : Nat) (b : TaskBehavior) :
    (qrun [.enqueue ⟨.asyncThrow ec, false⟩, .taskSettles,
      .enqueue ⟨b, false⟩, .taskSettles]).obs =
      [⟨true, .settled (.thrown (.taskErr ec))⟩,
       ⟨true, .settled b.outcome⟩] := by
  cases b
  · rfl
  · rfl
  · rfl
  · rfl

/-- C9: calling `enqueue` on a disposed queue — whatever the chain state —
throws the disposed-queue error synchronously to the caller without invoking
the task, and leaves the queue state (including any pending chain)
completely unchanged. -/
theorem c9_enqueue_on_disposed_throws_sync
    (ch : Option (ChainStatus × List (Nat × TaskSpec))) (obs : List TaskObs)
    (t : TaskSpec) :
    enq ⟨⟨true, ch⟩, obs⟩ t =
      ⟨⟨true, ch⟩, obs ++ [⟨false, .syncThrown .disposed⟩]⟩ := by
  simp [enq]

/-- C10, counterexample.  With the queue poisoned, `redraw` leaves its token
pending (the queued redraw task is skipped, so it never clears the marker);
a subsequent `draw 200` has its enqueued task skipped too (the callback is
never invoked: calls stays `[100]`), yet the controller's pending-redraw
field changes from `some 0` to `none` — refuting the claim that no field
other than `lastFrame` changes when the enqueued task is skipped. -/
theorem c10_draw_clears_pending_token_ce :
    ((rrun [.draw 100 (some 7), .settleTask, .redraw none]).core.pendingRedraw
      = some 0)
    ∧ ((rrun [.draw 100 (some 7), .settleTask, .redraw none]).chain
      = some (.err (.taskErr 7), []))
    ∧ ((rrun [.draw 100 (some 7), .settleTask, .redraw none,
        .draw 200 none]).core.pendingRedraw = none)
    ∧ ((rrun [.draw 100 (some 7), .settleTask, .redraw none,
        .draw 200 none]).core.calls = [100]) := by decide

/-- C10, amended: on a poisoned queue, `draw f cb` closes the previous
retained last frame and replaces it with a fresh clone before enqueuing, and
also aborts and clears any pending-redraw token; the enqueued task is
skipped, so nothing else changes — the callback is not invoked, the incoming
frame `f` is not closed, and the chain stays poisoned. -/
theorem c10_draw_updates_last_frame_before_enqueue
    (e : JsError) (pr lf : Option Nat) (ab : List Nat) (nt nc : Nat)
    (cl ca : List Nat) (f : Nat) (cb : Option Nat) :
    rstep ⟨false, some (.err e, []), ⟨pr, lf, ab, nt, nc, cl, ca⟩⟩ (.draw f cb) =
      ⟨false, some (.err e, []),
        ⟨none, some nc, ab ++ pr.toList, nt, nc + 1, cl ++ lf.toList, ca⟩⟩ := by
  simp [rstep, renqueue, rdrain]

end YaWebAdb
